import Mathlib

/-!
Shallow embedding of the userspace flow-record translation layer of the
netobserv eBPF agent (`pkg/model/record.go`), together with theorems about
its behavior: time reconstruction from monotonic clocks, record building,
the raw little-endian binary decoder, event-metadata checks and the
fixed-width IP address codec.

Machine integers are modelled as `Nat`/`Int` with explicit reduction
modulo `2^64` where Go's `uint64`/`int64` arithmetic wraps; Go `time.Time`
is modelled as an unbounded `Int` of nanoseconds since the epoch;
Go slices and fixed arrays are modelled as `List Nat` of byte values;
operations that can panic in Go (out-of-range indexing, short slicing)
return `Option`/`Except`.
-/

namespace NetObserv

/-- Size of Go's `uint64` value space, `2 ^ 64`. -/
def U64SIZE : Nat := 18446744073709551616

/-- Size of the nonnegative half of Go's `int64` value space, `2 ^ 63`. -/
def I64HALF : Nat := 9223372036854775808

/-- Go `uint64` subtraction `a - b`: wraps modulo `2 ^ 64`. -/
def sub64 (a b : Nat) : Nat :=
  (a % U64SIZE + (U64SIZE - b % U64SIZE)) % U64SIZE

/-- Reduce an unbounded integer into the `int64` range `[-2^63, 2^63)`,
as Go conversions and overflowing `int64` operations do. -/
def wrap64 (x : Int) : Int :=
  (x + (I64HALF : Int)) % (U64SIZE : Int) - (I64HALF : Int)

/-- Go conversion `int64(u)` of a `uint64` value: reinterpret the bit
pattern, i.e. values `≥ 2^63` become negative. -/
def toInt64 (n : Nat) : Int := wrap64 (n : Int)

/-- Go unary minus on an `int64` value (wraps at `math.MinInt64`). -/
def negInt64 (d : Int) : Int := wrap64 (-d)

/-- Go `time.Time.Add`: shift an absolute instant by a (signed) number of
nanoseconds. Absolute instants are modelled as unbounded `Int` nanoseconds. -/
def timeAdd (t d : Int) : Int := t + d

-- Constants from record.go (IANA direction values, bounded-array capacities).

/-- Ingress direction constant (IANA field 61). -/
def DirectionIngress : Nat := 0

/-- Egress direction constant (IANA field 61). -/
def DirectionEgress : Nat := 1

/-- Capacity of the fixed event-metadata tag, in bytes. -/
def NetworkEventsMaxEventsMD : Nat := 8

/-- Capacity of the fixed array of network-event metadata tags. -/
def MaxNetworkEvents : Nat := 4

/-- Capacity of the fixed array of additional observed interfaces. -/
def MaxObservedInterfaces : Nat := 4

-- The raw eBPF structs (`ebpf.BpfFlowContent` and friends) are generated
-- code outside this repository's model package; their shape below is the
-- one record.go reads: monotonic start/end timestamps, first-seen
-- interface/direction, and the optional additional-metrics block.

/-- One additional observed interface: index and direction (`BpfObservedIntfT`). -/
structure BpfObservedIntfT where
  IfIndex : Nat
  Direction : Nat
deriving DecidableEq, Repr

/-- DNS record metrics; only the latency field is read by the builder. -/
structure BpfDnsRecordT where
  Latency : Nat
deriving DecidableEq, Repr

/-- Additional metrics block (`BpfAdditionalMetrics`): bounded sequence of
additional observed interfaces with its count, flow round-trip time and
DNS record. The Go field is a fixed `[4]` array; it is modelled as a list
whose well-formed length is `MaxObservedInterfaces`. -/
structure BpfAdditionalMetrics where
  NbObservedIntf : Nat
  ObservedIntf : List BpfObservedIntfT
  FlowRtt : Nat
  DnsRecord : BpfDnsRecordT
deriving DecidableEq, Repr

/-- Flow metrics content (`BpfFlowContent`) as read by the record builder:
monotonic timestamps (`uint64` nanoseconds), first-seen interface index and
direction, and the optional additional metrics block (a nil-able pointer in
Go, hence `Option`). -/
structure BpfFlowContent where
  StartMonoTimeTs : Nat
  EndMonoTimeTs : Nat
  IfIndexFirstSeen : Nat
  DirectionFirstSeen : Nat
  AdditionalMetrics : Option BpfAdditionalMetrics
deriving DecidableEq, Repr

/-- Opaque flow key (`ebpf.BpfFlowId`); the builder copies it verbatim and
never inspects it, so its contents are irrelevant here. -/
structure BpfFlowId where
  raw : Nat
deriving DecidableEq, Repr

/-- Placeholder for `config.GenericMap` entries (populated only by
downstream enrichment, never by this package). -/
def GenericMap := List (String × String)
deriving instance DecidableEq for GenericMap

/-- Interface observation pair: resolved interface name and direction. -/
structure IntfDir where
  Interface : String
  Direction : Nat
deriving DecidableEq, Repr

/-- Constructor `NewIntfDir` from record.go. -/
def NewIntfDir (intf : String) (dir : Nat) : IntfDir :=
  { Interface := intf, Direction := dir }

/-- The canonical domain record (`Record` in record.go). -/
structure Record where
  ID : BpfFlowId
  Metrics : BpfFlowContent
  TimeFlowStart : Int
  TimeFlowEnd : Int
  DNSLatency : Int
  Interfaces : List IntfDir
  AgentIP : List Nat
  TimeFlowRtt : Int
  NetworkMonitorEventsMD : List GenericMap
deriving DecidableEq

/-- Time reconstruction performed by `NewRecord` for one monotonic
timestamp `ts`: `delta := time.Duration(monotonicNow - ts)` (a `uint64`
subtraction reinterpreted as `int64`) followed by `currentTime.Add(-delta)`. -/
def reconstructTime (currentTime : Int) (monotonicNow ts : Nat) : Int :=
  timeAdd currentTime (negInt64 (toInt64 (sub64 monotonicNow ts)))

/-- The builder loop over `AdditionalMetrics.ObservedIntf[0..n-1]`, in
stored order; `none` models the index-out-of-range panic when the count
exceeds the array bounds. -/
def observedIntfList (namer : Nat → String) (intfs : List BpfObservedIntfT) :
    Nat → Option (List IntfDir)
  | 0 => some []
  | n + 1 =>
    match observedIntfList namer intfs n, intfs.get? n with
    | some acc, some o => some (acc ++ [NewIntfDir (namer o.IfIndex) o.Direction])
    | _, _ => none

/-- The record assembled by `NewRecord` before the conditional
additional-metrics mutations (`var record = Record{...}` in the source). -/
def baseRecord (agentIP : List Nat) (namer : Nat → String) (key : BpfFlowId)
    (metrics : BpfFlowContent) (currentTime : Int) (monotonicCurrentTime : Nat) : Record :=
  { ID := key
    Metrics := metrics
    TimeFlowStart := reconstructTime currentTime monotonicCurrentTime metrics.StartMonoTimeTs
    TimeFlowEnd := reconstructTime currentTime monotonicCurrentTime metrics.EndMonoTimeTs
    DNSLatency := 0
    Interfaces := [NewIntfDir (namer metrics.IfIndexFirstSeen) metrics.DirectionFirstSeen]
    AgentIP := agentIP
    TimeFlowRtt := 0
    NetworkMonitorEventsMD := [] }

/-- The record builder `NewRecord`. The two process-wide globals (agent IP
and interface namer) are passed explicitly. Returns `none` exactly when the
Go code would panic indexing `ObservedIntf` out of range. -/
def NewRecord (agentIP : List Nat) (namer : Nat → String) (key : BpfFlowId)
    (metrics : BpfFlowContent) (currentTime : Int) (monotonicCurrentTime : Nat) :
    Option Record :=
  match metrics.AdditionalMetrics with
  | none => some (baseRecord agentIP namer key metrics currentTime monotonicCurrentTime)
  | some am =>
    match observedIntfList namer am.ObservedIntf am.NbObservedIntf with
    | none => none
    | some extra =>
      some { baseRecord agentIP namer key metrics currentTime monotonicCurrentTime with
        Interfaces :=
          (baseRecord agentIP namer key metrics currentTime monotonicCurrentTime).Interfaces
            ++ extra
        TimeFlowRtt := if am.FlowRtt ≠ 0 then toInt64 am.FlowRtt else 0
        DNSLatency := if am.DnsRecord.Latency ≠ 0 then toInt64 am.DnsRecord.Latency else 0 }

/-- Membership check `networkEventsMDExist`: linear scan comparing each
existing tag byte-for-byte (`reflect.DeepEqual` on byte arrays) with the
candidate. -/
def networkEventsMDExist : List (List Nat) → List Nat → Bool
  | [], _ => false
  | e :: rest, md => if e = md then true else networkEventsMDExist rest md

/-- All-zero check `AllZerosMetaData` over the bytes of a tag. -/
def AllZerosMetaData : List Nat → Bool
  | [] => true
  | v :: rest => if v ≠ 0 then false else AllZerosMetaData rest

/-- Conversion `IP`: a fixed 16-byte address viewed as a `net.IP` byte
slice (`ia[:]`), i.e. the same bytes. -/
def IP (ia : List Nat) : List Nat := ia

/-- Conversion `IPAddrFromNetIP`: slice the first 16 bytes of a `net.IP`
into the fixed form; slicing `netIP[0:16]` panics (modelled as `none`) when
fewer than 16 bytes are available. -/
def IPAddrFromNetIP (netIP : List Nat) : Option (List Nat) :=
  if 16 ≤ netIP.length then some (netIP.take 16) else none

-- Raw binary decoder. `ReadFrom` calls `binary.Read(reader, binary.LittleEndian, &fr)`
-- which reads exactly `binary.Size(fr)` bytes with `io.ReadFull` and decodes
-- the struct field by field in little-endian order. The concrete field layout
-- of the generated `ebpf.BpfFlowRecordT` lives outside this package, so the
-- record is modelled against an arbitrary schema of fixed field widths.

/-- Decode failure of the raw binary decoder: end-of-input before any byte,
end-of-input mid-record, or an underlying read failure with its cause. -/
inductive DecodeError where
  | eof
  | unexpectedEOF
  | ioError (cause : String)
deriving DecidableEq, Repr

/-- A byte source: the bytes it can still deliver, and an optional
underlying I/O failure reported once those bytes are exhausted (when
`ioErr` is `none` the source simply reports end of input). -/
structure ByteSource where
  data : List Nat
  ioErr : Option String
deriving DecidableEq, Repr

/-- The failure reported by a byte source that could not deliver a full
read: the underlying cause if the source failed, otherwise `eof` when
nothing was read and `unexpectedEOF` after a short read. -/
def readFailure (src : ByteSource) : DecodeError :=
  match src.ioErr with
  | some c => DecodeError.ioError c
  | none =>
    if src.data.length = 0 then DecodeError.eof else DecodeError.unexpectedEOF

/-- Behavior of `io.ReadFull` as used by `binary.Read`: deliver exactly `n`
bytes, or fail with the source's read failure. -/
def readFull (src : ByteSource) (n : Nat) : Except DecodeError (List Nat) :=
  if n ≤ src.data.length then Except.ok (src.data.take n)
  else Except.error (readFailure src)

/-- Little-endian value of a byte list (first byte least significant). -/
def decodeLEField (bytes : List Nat) : Nat :=
  bytes.foldr (fun b acc => b % 256 + 256 * acc) 0

/-- Modelled from the spec: the fixed-layout record schema of the generated
`ebpf.BpfFlowRecordT` is not under src/; a record is a sequence of
fixed-width fields, each decoded in little-endian order. -/
def decodeFields : List Nat → List Nat → List Nat
  | [], _ => []
  | w :: ws, bytes => decodeLEField (bytes.take w) :: decodeFields ws (bytes.drop w)

/-- Total byte size of a record under a schema of field widths
(`binary.Size` of the struct). -/
def recordSize (schema : List Nat) : Nat := schema.sum

/-- The raw binary decoder `ReadFrom`: read exactly one fixed-size record
from the byte source and decode its fields in little-endian order;
propagate the read failure otherwise. -/
def ReadFrom (schema : List Nat) (src : ByteSource) : Except DecodeError (List Nat) :=
  match readFull src (recordSize schema) with
  | Except.ok bytes => Except.ok (decodeFields schema bytes)
  | Except.error e => Except.error e

-- scratch checks
example : sub64 5 3 = 2 := by decide
example : sub64 3 5 = U64SIZE - 2 := by decide
example : toInt64 (I64HALF + 1) = -(9223372036854775808 - 1) := by decide
example : negInt64 (-(9223372036854775808 : Int)) = -9223372036854775808 := by decide
example : reconstructTime 100 50 40 = 90 := by decide
example (a : Nat) (h : a < 2 ^ 64) : a % 18446744073709551616 = a := by omega
example : ReadFrom [2, 1] { data := [1, 2, 3, 4], ioErr := none } = Except.ok [513, 3] := rfl
example : ReadFrom [2, 1] { data := [1, 2], ioErr := some "boom" }
    = Except.error (DecodeError.ioError "boom") := rfl
example : ReadFrom [2, 1] { data := [1, 2], ioErr := none }
    = Except.error DecodeError.unexpectedEOF := rfl
example : observedIntfList (fun i => toString i) [⟨7, 1⟩, ⟨9, 0⟩, ⟨0, 0⟩, ⟨0, 0⟩] 2
    = some [NewIntfDir "7" 1, NewIntfDir "9" 0] := by decide
example : observedIntfList (fun i => toString i) [⟨7, 1⟩, ⟨9, 0⟩, ⟨0, 0⟩, ⟨0, 0⟩] 5 = none := by
  decide

/-! Helper lemmas shared across the claim theorems. -/

/-- When the requested count is within bounds, the builder loop returns the
first `n` stored entries, in order, through the namer. -/
theorem observedIntfList_eq_take (namer : Nat → String) (intfs : List BpfObservedIntfT) :
    ∀ n : Nat, n ≤ intfs.length →
      observedIntfList namer intfs n
        = some (List.map (fun o => NewIntfDir (namer o.IfIndex) o.Direction) (intfs.take n)) := by
  intro n
  induction n with
  | zero => intro _; simp [observedIntfList]
  | succ n ih =>
    intro h
    have hn : n < intfs.length := h
    rw [observedIntfList, ih (Nat.le_of_lt hn), List.get?_eq_get hn]
    simp only [Option.some.injEq]
    rw [List.take_succ, List.map_append]
    simp [List.getElem?_eq_getElem hn]

/-- The time-reconstruction fields of any successfully built record. -/
theorem NewRecord_time_fields (agentIP : List Nat) (namer : Nat → String) (key : BpfFlowId)
    (metrics : BpfFlowContent) (c : Int) (mono : Nat) (r : Record)
    (h : NewRecord agentIP namer key metrics c mono = some r) :
    r.TimeFlowStart = reconstructTime c mono metrics.StartMonoTimeTs
      ∧ r.TimeFlowEnd = reconstructTime c mono metrics.EndMonoTimeTs := by
  unfold NewRecord at h
  split at h
  · simp only [Option.some.injEq] at h
    subst h
    exact ⟨rfl, rfl⟩
  · split at h
    · exact absurd h (by simp)
    · simp only [Option.some.injEq] at h
      subst h
      exact ⟨rfl, rfl⟩

/-- When the monotonic delta is in range, reconstruction is exact
wall-clock subtraction. -/
theorem reconstructTime_exact (c : Int) (mono ts : Nat) (hle : ts ≤ mono)
    (hd : mono - ts < I64HALF) :
    reconstructTime c mono ts = c - ((mono : Int) - (ts : Int))
      ∧ reconstructTime c mono ts ≤ c := by
  have h1 : sub64 mono ts = mono - ts := by
    unfold sub64 U64SIZE
    unfold I64HALF at hd
    omega
  have h2 : toInt64 (mono - ts) = (mono : Int) - (ts : Int) := by
    unfold toInt64 wrap64 U64SIZE I64HALF
    unfold I64HALF at hd
    omega
  have h3 : negInt64 ((mono : Int) - (ts : Int)) = -((mono : Int) - (ts : Int)) := by
    unfold negInt64 wrap64 U64SIZE I64HALF
    unfold I64HALF at hd
    omega
  unfold reconstructTime timeAdd
  rw [h1, h2, h3]
  constructor
  · ring
  · omega

/-! Claim theorems. -/

/-- C6: the membership check over event-metadata tags returns true iff the
candidate tag is byte-for-byte equal to some entry of the existing
sequence; in particular it is false for an empty sequence. -/
theorem networkEventsMDExist_iff_mem (events : List (List Nat)) (md : List Nat) :
    (networkEventsMDExist events md = true ↔ md ∈ events)
      ∧ networkEventsMDExist [] md = false := by
  refine ⟨?_, rfl⟩
  induction events with
  | nil => simp [networkEventsMDExist]
  | cons e rest ih =>
    by_cases h : e = md
    · subst h
      simp [networkEventsMDExist]
    · simp [networkEventsMDExist, h, ih, Ne.symm h]

/-- C7: the all-zero check on an event-metadata tag returns true iff every
byte of the tag is zero. -/
theorem allZerosMetaData_iff_all_zero (s : List Nat) :
    AllZerosMetaData s = true ↔ ∀ v ∈ s, v = 0 := by
  induction s with
  | nil => simp [AllZerosMetaData]
  | cons v rest ih =>
    by_cases h : v = 0
    · subst h
      simp [AllZerosMetaData, ih]
    · simp [AllZerosMetaData, h]

/-- C8: converting a fixed 16-byte address to its external `net.IP` form
and back yields the identical 16 bytes. -/
theorem ipAddrFromNetIP_IP_roundtrip (ia : List Nat) (h : ia.length = 16) :
    IPAddrFromNetIP (IP ia) = some ia := by
  unfold IPAddrFromNetIP IP
  rw [if_pos (by omega), ← h, List.take_length]

/-- Witness for C8 at a v4-mapped address and at a native IPv6 address. -/
theorem ipAddrFromNetIP_IP_roundtrip_witness :
    IPAddrFromNetIP (IP [0, 0, 0, 0, 0, 0, 0, 0, 0, 0, 255, 255, 192, 168, 1, 1])
        = some [0, 0, 0, 0, 0, 0, 0, 0, 0, 0, 255, 255, 192, 168, 1, 1]
      ∧ IPAddrFromNetIP (IP [32, 1, 13, 184, 0, 0, 0, 0, 0, 0, 0, 0, 0, 0, 0, 1])
        = some [32, 1, 13, 184, 0, 0, 0, 0, 0, 0, 0, 0, 0, 0, 0, 1] :=
  ⟨ipAddrFromNetIP_IP_roundtrip _ (by decide), ipAddrFromNetIP_IP_roundtrip _ (by decide)⟩

/-- C2: with an additional-metrics block recording `n` in-bounds observed
interfaces, the built record's observation sequence is exactly the
first-seen entry followed by the `n` stored entries in order (no
deduplication), hence has `n + 1` entries. -/
theorem newRecord_interfaces_first_seen_then_observed (agentIP : List Nat)
    (namer : Nat → String) (key : BpfFlowId) (metrics : BpfFlowContent) (c : Int)
    (mono : Nat) (am : BpfAdditionalMetrics)
    (hm : metrics.AdditionalMetrics = some am)
    (hn : am.NbObservedIntf ≤ am.ObservedIntf.length) :
    ∃ r, NewRecord agentIP namer key metrics c mono = some r
      ∧ r.Interfaces
          = NewIntfDir (namer metrics.IfIndexFirstSeen) metrics.DirectionFirstSeen
            :: List.map (fun o => NewIntfDir (namer o.IfIndex) o.Direction)
                (am.ObservedIntf.take am.NbObservedIntf)
      ∧ r.Interfaces.length = am.NbObservedIntf + 1 := by
  obtain ⟨sst, set, sfi, sfd, ama⟩ := metrics
  simp only at hm
  subst hm
  refine ⟨{ baseRecord agentIP namer key ⟨sst, set, sfi, sfd, some am⟩ c mono with
      Interfaces := NewIntfDir (namer sfi) sfd
        :: List.map (fun o => NewIntfDir (namer o.IfIndex) o.Direction)
            (am.ObservedIntf.take am.NbObservedIntf)
      TimeFlowRtt := if am.FlowRtt ≠ 0 then toInt64 am.FlowRtt else 0
      DNSLatency := if am.DnsRecord.Latency ≠ 0 then toInt64 am.DnsRecord.Latency else 0 },
    ?_, ?_, ?_⟩
  · simp [NewRecord, observedIntfList_eq_take namer am.ObservedIntf am.NbObservedIntf hn,
      baseRecord]
  · rfl
  · simp [List.length_take]
    omega

/-- C3: every successfully built record has at least one interface
observation, whose first entry is the first-seen pair, and its
network-event-metadata sequence is initialized empty. -/
theorem newRecord_first_seen_head_and_empty_events (agentIP : List Nat)
    (namer : Nat → String) (key : BpfFlowId) (metrics : BpfFlowContent) (c : Int)
    (mono : Nat) (r : Record)
    (h : NewRecord agentIP namer key metrics c mono = some r) :
    r.Interfaces.head?
        = some (NewIntfDir (namer metrics.IfIndexFirstSeen) metrics.DirectionFirstSeen)
      ∧ 1 ≤ r.Interfaces.length
      ∧ r.NetworkMonitorEventsMD = [] := by
  unfold NewRecord at h
  split at h
  · simp only [Option.some.injEq] at h
    subst h
    simp [baseRecord]
  · split at h
    · exact absurd h (by simp)
    · simp only [Option.some.injEq] at h
      subst h
      simp [baseRecord]

/-- C10: the record builder always succeeds on well-formed inputs: when the
additional observed-interface count does not exceed the capacity of the
fixed array, no index is out of range. -/
theorem newRecord_isSome_within_capacity (agentIP : List Nat) (namer : Nat → String)
    (key : BpfFlowId) (metrics : BpfFlowContent) (c : Int) (mono : Nat)
    (h : ∀ am, metrics.AdditionalMetrics = some am →
      am.ObservedIntf.length = MaxObservedInterfaces
        ∧ am.NbObservedIntf ≤ MaxObservedInterfaces) :
    (NewRecord agentIP namer key metrics c mono).isSome = true := by
  obtain ⟨sst, set, sfi, sfd, ama⟩ := metrics
  cases ama with
  | none => simp [NewRecord]
  | some am =>
    obtain ⟨hl, hn⟩ := h am rfl
    rw [MaxObservedInterfaces] at hl hn
    simp [NewRecord,
      observedIntfList_eq_take namer am.ObservedIntf am.NbObservedIntf (by omega)]

/-- C4: with the additional-metrics block present, `TimeFlowRtt` is set to
the RTT field as a nanosecond duration exactly when that field is non-zero,
and `DNSLatency` to the DNS-latency field exactly when it is non-zero;
zero fields leave the durations at zero. -/
theorem newRecord_rtt_and_dns_latency (agentIP : List Nat) (namer : Nat → String)
    (key : BpfFlowId) (metrics : BpfFlowContent) (c : Int) (mono : Nat)
    (am : BpfAdditionalMetrics) (r : Record)
    (hm : metrics.AdditionalMetrics = some am)
    (h : NewRecord agentIP namer key metrics c mono = some r) :
    (am.FlowRtt = 0 → r.TimeFlowRtt = 0)
      ∧ (am.FlowRtt ≠ 0 → r.TimeFlowRtt = toInt64 am.FlowRtt)
      ∧ (am.DnsRecord.Latency = 0 → r.DNSLatency = 0)
      ∧ (am.DnsRecord.Latency ≠ 0 → r.DNSLatency = toInt64 am.DnsRecord.Latency) := by
  obtain ⟨sst, set, sfi, sfd, ama⟩ := metrics
  simp only at hm
  subst hm
  unfold NewRecord at h
  dsimp only at h
  split at h
  · exact absurd h (by simp)
  · simp only [Option.some.injEq] at h
    subst h
    refine ⟨?_, ?_, ?_, ?_⟩ <;> intro hz <;> simp [hz]

/-- Closed-form characterization of the raw binary decoder. -/
theorem ReadFrom_eq (schema : List Nat) (src : ByteSource) :
    ReadFrom schema src
      = if recordSize schema ≤ src.data.length
        then Except.ok (decodeFields schema (src.data.take (recordSize schema)))
        else Except.error (readFailure src) := by
  unfold ReadFrom readFull
  by_cases hlen : recordSize schema ≤ src.data.length
  · rw [if_pos hlen, if_pos hlen]
  · rw [if_neg hlen, if_neg hlen]

/-- C5: the decoder reads exactly one record-sized little-endian prefix of
the source; it returns an error iff the source ends before a full record
is read or the underlying read fails, and an underlying failure's cause is
carried in the returned error. -/
theorem readFrom_error_iff_short_read (schema : List Nat) (src : ByteSource) :
    ((∃ e, ReadFrom schema src = Except.error e) ↔ src.data.length < recordSize schema)
      ∧ (recordSize schema ≤ src.data.length →
          ReadFrom schema src
            = Except.ok (decodeFields schema (src.data.take (recordSize schema))))
      ∧ (∀ cause, src.data.length < recordSize schema → src.ioErr = some cause →
          ReadFrom schema src = Except.error (DecodeError.ioError cause)) := by
  rw [ReadFrom_eq]
  by_cases hlen : recordSize schema ≤ src.data.length
  · rw [if_pos hlen]
    refine ⟨⟨fun he => ?_, fun hl => absurd hlen (by omega)⟩, fun _ => rfl,
      fun cause hl _ => absurd hlen (by omega)⟩
    obtain ⟨e, he⟩ := he
    exact absurd he (by simp)
  · rw [if_neg hlen]
    refine ⟨⟨fun _ => by omega, fun _ => ⟨readFailure src, rfl⟩⟩,
      fun hle => absurd hle hlen, fun cause hl hio => ?_⟩
    unfold readFailure
    rw [hio]

/-- Witness for C5: a short read with an underlying failure carries its
cause; a sufficient source decodes the record-sized prefix. -/
theorem readFrom_error_iff_short_read_witness :
    ReadFrom [2, 1] { data := [7, 1], ioErr := some "underlying" }
        = Except.error (DecodeError.ioError "underlying")
      ∧ ReadFrom [2, 1] { data := [7, 1, 9, 4], ioErr := none }
        = Except.ok (decodeFields [2, 1] ([7, 1, 9, 4].take (recordSize [2, 1]))) := by
  have h1 := readFrom_error_iff_short_read [2, 1] { data := [7, 1], ioErr := some "underlying" }
  have h2 := readFrom_error_iff_short_read [2, 1] { data := [7, 1, 9, 4], ioErr := none }
  exact ⟨h1.2.2 "underlying" (by decide) rfl, h2.2.1 (by decide)⟩

/-- C1 (amended): when a record timestamp is at most the monotonic reading
and the delta fits in a signed 64-bit nanosecond duration, the built
record's reconstructed absolute time is `currentTime − (monotonicNow − t)`
and is at most `currentTime`; independently for the flow-start and the
flow-end timestamps. -/
theorem newRecord_reconstructs_wall_clock (agentIP : List Nat) (namer : Nat → String)
    (key : BpfFlowId) (metrics : BpfFlowContent) (c : Int) (mono : Nat) (r : Record)
    (h : NewRecord agentIP namer key metrics c mono = some r) :
    (metrics.StartMonoTimeTs ≤ mono → mono - metrics.StartMonoTimeTs < 2 ^ 63 →
      r.TimeFlowStart = c - ((mono : Int) - (metrics.StartMonoTimeTs : Int))
        ∧ r.TimeFlowStart ≤ c)
      ∧ (metrics.EndMonoTimeTs ≤ mono → mono - metrics.EndMonoTimeTs < 2 ^ 63 →
          r.TimeFlowEnd = c - ((mono : Int) - (metrics.EndMonoTimeTs : Int))
            ∧ r.TimeFlowEnd ≤ c) := by
  obtain ⟨hs, he⟩ := NewRecord_time_fields agentIP namer key metrics c mono r h
  have hIH : I64HALF = 2 ^ 63 := by norm_num [I64HALF]
  constructor
  · intro hle hd
    rw [hs]
    exact reconstructTime_exact c mono metrics.StartMonoTimeTs hle (by rw [hIH]; exact hd)
  · intro hle hd
    rw [he]
    exact reconstructTime_exact c mono metrics.EndMonoTimeTs hle (by rw [hIH]; exact hd)

/-- Witness for C1 (amended): `currentTime = 100`, `monotonicNow = 50`,
record start timestamp `40`: reconstructed start time is `90 ≤ 100`. -/
theorem newRecord_reconstructs_wall_clock_witness :
    (baseRecord [] (fun _ => "eth0") ⟨0⟩
        { StartMonoTimeTs := 40, EndMonoTimeTs := 45, IfIndexFirstSeen := 0,
          DirectionFirstSeen := 0, AdditionalMetrics := none } 100 50).TimeFlowStart = 90
      ∧ (baseRecord [] (fun _ => "eth0") ⟨0⟩
          { StartMonoTimeTs := 40, EndMonoTimeTs := 45, IfIndexFirstSeen := 0,
            DirectionFirstSeen := 0, AdditionalMetrics := none } 100 50).TimeFlowStart ≤ 100 := by
  have h := (newRecord_reconstructs_wall_clock [] (fun _ => "eth0") ⟨0⟩
      { StartMonoTimeTs := 40, EndMonoTimeTs := 45, IfIndexFirstSeen := 0,
        DirectionFirstSeen := 0, AdditionalMetrics := none } 100 50 _ rfl).1
      (by norm_num) (by norm_num)
  refine ⟨?_, h.2⟩
  rw [h.1]
  norm_num

/-- Counterexample to C1 as stated: with `currentTime = 0`,
`monotonicNow = 2^63 + 1` and record timestamp `0 ≤ monotonicNow`, the
built record's flow-start time is `2^63 − 1`, which is strictly greater
than `currentTime` and differs from `currentTime − (monotonicNow − t)`. -/
theorem newRecord_reconstruction_overflows_cex :
    (0 : Nat) ≤ 9223372036854775809
      ∧ Option.map Record.TimeFlowStart
          (NewRecord [] (fun _ => "eth0") ⟨0⟩
            { StartMonoTimeTs := 0, EndMonoTimeTs := 0, IfIndexFirstSeen := 0,
              DirectionFirstSeen := 0, AdditionalMetrics := none }
            0 9223372036854775809)
          = some 9223372036854775807
      ∧ ¬ ((9223372036854775807 : Int) ≤ 0)
      ∧ (9223372036854775807 : Int) ≠ 0 - ((9223372036854775809 : Int) - (0 : Int)) := by
  refine ⟨by norm_num, ?_, by norm_num, by norm_num⟩
  rfl

/-- C9: no clamping or validation of `t ≤ monotonicNow`: for a record
timestamp strictly greater than the monotonic reading, the unsigned 64-bit
subtraction wraps to `(monotonicNow − t) mod 2^64` — a nonnegative value
instead of the negative real difference — and the time reconstructor
consumes exactly that wrapped delta. -/
theorem sub64_underflow_unclamped (mono t : Nat) (_hm : mono < 2 ^ 64) (_ht : t < 2 ^ 64)
    (hlt : mono < t) :
    ((sub64 mono t : Nat) : Int) = ((mono : Int) - (t : Int)) % 2 ^ 64
      ∧ (mono : Int) - (t : Int) < 0
      ∧ ((sub64 mono t : Nat) : Int) ≠ (mono : Int) - (t : Int)
      ∧ ∀ c : Int, reconstructTime c mono t = timeAdd c (negInt64 (toInt64 (sub64 mono t))) := by
  refine ⟨?_, by omega, ?_, fun c => rfl⟩
  · unfold sub64 U64SIZE
    omega
  · unfold sub64 U64SIZE
    omega

/-- Witness for C9 at `monotonicNow = 3`, `t = 5`. -/
theorem sub64_underflow_unclamped_witness :
    ((sub64 3 5 : Nat) : Int) = ((3 : Int) - (5 : Int)) % 2 ^ 64
      ∧ ((sub64 3 5 : Nat) : Int) ≠ (3 : Int) - (5 : Int) := by
  have h := sub64_underflow_unclamped 3 5 (by norm_num) (by norm_num) (by norm_num)
  exact ⟨h.1, h.2.2.1⟩

/-- Witness for C2 with two recorded additional interfaces: three entries,
first-seen first, then the two stored entries in order. -/
theorem newRecord_interfaces_first_seen_then_observed_witness :
    Option.map (fun r => r.Interfaces)
        (NewRecord [] (fun i => toString i) ⟨0⟩
          { StartMonoTimeTs := 0, EndMonoTimeTs := 0, IfIndexFirstSeen := 5,
            DirectionFirstSeen := 0,
            AdditionalMetrics := some
              { NbObservedIntf := 2,
                ObservedIntf := [⟨7, 1⟩, ⟨9, 0⟩, ⟨0, 0⟩, ⟨0, 0⟩],
                FlowRtt := 0, DnsRecord := ⟨0⟩ } } 0 0)
      = some [NewIntfDir "5" 0, NewIntfDir "7" 1, NewIntfDir "9" 0]
      ∧ Option.map (fun r => r.Interfaces.length)
          (NewRecord [] (fun i => toString i) ⟨0⟩
            { StartMonoTimeTs := 0, EndMonoTimeTs := 0, IfIndexFirstSeen := 5,
              DirectionFirstSeen := 0,
              AdditionalMetrics := some
                { NbObservedIntf := 2,
                  ObservedIntf := [⟨7, 1⟩, ⟨9, 0⟩, ⟨0, 0⟩, ⟨0, 0⟩],
                  FlowRtt := 0, DnsRecord := ⟨0⟩ } } 0 0)
        = some 3 := by
  obtain ⟨r, hr, hintf, hlen⟩ := newRecord_interfaces_first_seen_then_observed
    [] (fun i => toString i) ⟨0⟩
    { StartMonoTimeTs := 0, EndMonoTimeTs := 0, IfIndexFirstSeen := 5,
      DirectionFirstSeen := 0,
      AdditionalMetrics := some
        { NbObservedIntf := 2,
          ObservedIntf := [⟨7, 1⟩, ⟨9, 0⟩, ⟨0, 0⟩, ⟨0, 0⟩],
          FlowRtt := 0, DnsRecord := ⟨0⟩ } } 0 0
    { NbObservedIntf := 2,
      ObservedIntf := [⟨7, 1⟩, ⟨9, 0⟩, ⟨0, 0⟩, ⟨0, 0⟩],
      FlowRtt := 0, DnsRecord := ⟨0⟩ } rfl (by decide)
  rw [hr]
  refine ⟨?_, ?_⟩
  · rw [Option.map_some', hintf]
    rfl
  · rw [Option.map_some', hlen]

/-- Witness for C3 at the spec scenario: first-seen index 3, ingress,
namer resolving to "eth0", no additional metrics. -/
theorem newRecord_first_seen_head_and_empty_events_witness :
    (baseRecord [] (fun _ => "eth0") ⟨0⟩
        { StartMonoTimeTs := 0, EndMonoTimeTs := 0, IfIndexFirstSeen := 3,
          DirectionFirstSeen := 0, AdditionalMetrics := none } 0 0).Interfaces.head?
        = some (NewIntfDir "eth0" 0)
      ∧ 1 ≤ (baseRecord [] (fun _ => "eth0") ⟨0⟩
          { StartMonoTimeTs := 0, EndMonoTimeTs := 0, IfIndexFirstSeen := 3,
            DirectionFirstSeen := 0, AdditionalMetrics := none } 0 0).Interfaces.length
      ∧ (baseRecord [] (fun _ => "eth0") ⟨0⟩
          { StartMonoTimeTs := 0, EndMonoTimeTs := 0, IfIndexFirstSeen := 3,
            DirectionFirstSeen := 0, AdditionalMetrics := none } 0 0).NetworkMonitorEventsMD
        = [] := by
  exact newRecord_first_seen_head_and_empty_events [] (fun _ => "eth0") ⟨0⟩
    { StartMonoTimeTs := 0, EndMonoTimeTs := 0, IfIndexFirstSeen := 3,
      DirectionFirstSeen := 0, AdditionalMetrics := none } 0 0 _ rfl

/-- Witness for C4: `FlowRtt = 1_500_000` nanoseconds yields
`TimeFlowRtt = 1_500_000` ns (1.5 ms); a zero DNS latency stays zero. -/
theorem newRecord_rtt_and_dns_latency_witness :
    Option.map (fun r => (r.TimeFlowRtt, r.DNSLatency))
        (NewRecord [] (fun i => toString i) ⟨0⟩
          { StartMonoTimeTs := 0, EndMonoTimeTs := 0, IfIndexFirstSeen := 0,
            DirectionFirstSeen := 0,
            AdditionalMetrics := some
              { NbObservedIntf := 0,
                ObservedIntf := [⟨0, 0⟩, ⟨0, 0⟩, ⟨0, 0⟩, ⟨0, 0⟩],
                FlowRtt := 1500000, DnsRecord := ⟨0⟩ } } 0 0)
      = some (1500000, 0) := by
  obtain ⟨r, hr⟩ : ∃ r, NewRecord [] (fun i => toString i) ⟨0⟩
      { StartMonoTimeTs := 0, EndMonoTimeTs := 0, IfIndexFirstSeen := 0,
        DirectionFirstSeen := 0,
        AdditionalMetrics := some
          { NbObservedIntf := 0,
            ObservedIntf := [⟨0, 0⟩, ⟨0, 0⟩, ⟨0, 0⟩, ⟨0, 0⟩],
            FlowRtt := 1500000, DnsRecord := ⟨0⟩ } } 0 0 = some r := ⟨_, rfl⟩
  have h := newRecord_rtt_and_dns_latency [] (fun i => toString i) ⟨0⟩
    { StartMonoTimeTs := 0, EndMonoTimeTs := 0, IfIndexFirstSeen := 0,
      DirectionFirstSeen := 0,
      AdditionalMetrics := some
        { NbObservedIntf := 0,
          ObservedIntf := [⟨0, 0⟩, ⟨0, 0⟩, ⟨0, 0⟩, ⟨0, 0⟩],
          FlowRtt := 1500000, DnsRecord := ⟨0⟩ } } 0 0
    { NbObservedIntf := 0,
      ObservedIntf := [⟨0, 0⟩, ⟨0, 0⟩, ⟨0, 0⟩, ⟨0, 0⟩],
      FlowRtt := 1500000, DnsRecord := ⟨0⟩ } r rfl hr
  rw [hr, Option.map_some', h.2.1 (by norm_num), h.2.2.1 rfl]
  decide

/-- Witness for C10: a full-capacity count of 4 observed interfaces still
builds a record. -/
theorem newRecord_isSome_within_capacity_witness :
    (NewRecord [] (fun i => toString i) ⟨0⟩
        { StartMonoTimeTs := 0, EndMonoTimeTs := 0, IfIndexFirstSeen := 0,
          DirectionFirstSeen := 0,
          AdditionalMetrics := some
            { NbObservedIntf := 4,
              ObservedIntf := [⟨1, 0⟩, ⟨2, 1⟩, ⟨3, 0⟩, ⟨4, 1⟩],
              FlowRtt := 0, DnsRecord := ⟨0⟩ } } 0 0).isSome = true := by
  exact newRecord_isSome_within_capacity [] (fun i => toString i) ⟨0⟩
    { StartMonoTimeTs := 0, EndMonoTimeTs := 0, IfIndexFirstSeen := 0,
      DirectionFirstSeen := 0,
      AdditionalMetrics := some
        { NbObservedIntf := 4,
          ObservedIntf := [⟨1, 0⟩, ⟨2, 1⟩, ⟨3, 0⟩, ⟨4, 1⟩],
          FlowRtt := 0, DnsRecord := ⟨0⟩ } } 0 0
    (fun am ham => by cases ham; exact ⟨by decide, by decide⟩)

end NetObserv
